import Mathlib

/-!
Verification development for `core/domain/fs_services.py` (Oppia).

The module is a thin layer over an injected file-system abstraction bound to
an entity reference `(entity_type, entity_id)`.  We embed it shallowly:

* The remote object store is a list of committed entries (newest first);
  `isfile` / `get` / `delete` / `commit` are the operations the module calls
  on its `AbstractFileSystem` handle, keyed by `(entity_type, entity_id, path)`.
* Python string slicing (`s[:i]`, `s[i:]` with negative indices) and
  `str.rfind` are reproduced exactly on `String.data`.
* External collaborators are parameters: the image compressor
  (`image_services.compress_image`), the JSON codec (`json.dumps` /
  `json.loads`), and the GCS `assets_path` property used by `copy_images`.
-/

namespace FsServices

/-- One committed object in the store: `commit` was called on the file system
bound to `(entityType, entityId)` with this path, content and mimetype. -/
structure Entry where
  entityType : String
  entityId : String
  path : String
  content : String
  mimetype : String
deriving DecidableEq

/-- The remote object store, newest commit first. -/
abbrev Store := List Entry

/-- Whether an entry is the object at `(et, ei, p)`. -/
def matchesKey (e : Entry) (et ei p : String) : Bool :=
  e.entityType == et && e.entityId == ei && e.path == p

/-- Embeds `fs.isfile(p)` on the file system bound to `(et, ei)`. -/
def isfile (s : Store) (et ei p : String) : Bool :=
  s.any (fun e => matchesKey e et ei p)

/-- Embeds `fs.commit(p, content, mimetype)` on the file system bound to `(et, ei)`:
the new entry shadows any older entry at the same key. -/
def commit (s : Store) (et ei p content mimetype : String) : Store :=
  ⟨et, ei, p, content, mimetype⟩ :: s

/-- Embeds `fs.get(p)` on the file system bound to `(et, ei)`: content of the newest
entry at the key, if any. -/
def getFile (s : Store) (et ei p : String) : Option String :=
  (s.find? (fun e => matchesKey e et ei p)).map Entry.content

/-- Mimetype recorded with the newest entry at the key, if any. -/
def getMimetype (s : Store) (et ei p : String) : Option String :=
  (s.find? (fun e => matchesKey e et ei p)).map Entry.mimetype

/-- Embeds `fs.delete(p)` on the file system bound to `(et, ei)`. -/
def deleteFile (s : Store) (et ei p : String) : Store :=
  s.filter (fun e => ! matchesKey e et ei p)

/-! ### Python string primitives -/

/-- Index of the last occurrence of `c` in the character list, or `-1`
(`str.rfind`). -/
def pyRfindAux (c : Char) : List Char → Int
  | [] => -1
  | x :: xs =>
      let r := pyRfindAux c xs
      if 0 ≤ r then r + 1
      else if x == c then 0
      else -1

/-- Python `s.rfind(c)`: index of the last occurrence of `c`, or `-1`. -/
def pyRfind (s : String) (c : Char) : Int :=
  pyRfindAux c s.data

/-- Python `s[:i]`, including the negative-index convention. -/
def pySliceTo (s : String) (i : Int) : String :=
  if i < 0 then ⟨s.data.take (Int.toNat ((s.data.length : Int) + i))⟩
  else ⟨s.data.take (Int.toNat i)⟩

/-- Python `s[i:]`, including the negative-index convention. -/
def pySliceFrom (s : String) (i : Int) : String :=
  if i < 0 then ⟨s.data.drop (Int.toNat ((s.data.length : Int) + i))⟩
  else ⟨s.data.drop (Int.toNat i)⟩

/-! ### Path derivation in `save_original_and_compressed_versions_of_image`
and `copy_images` -/

/-- Source line `'%s/%s' % (filename_prefix, filename)`. -/
def image_filepath (filenamePre filename : String) : String :=
  filenamePre ++ "/" ++ filename

/-- Source line `filename[:filename.rfind('.')]`. -/
def filename_wo_filetype (filename : String) : String :=
  pySliceTo filename (pyRfind filename '.')

/-- Source line `filename[filename.rfind('.') + 1:]`. -/
def filetype_of (filename : String) : String :=
  pySliceFrom filename (pyRfind filename '.' + 1)

/-- Source line `'%s_compressed.%s' % (filename_wo_filetype, filetype)`. -/
def compressed_image_filename (filename : String) : String :=
  filename_wo_filetype filename ++ "_compressed." ++ filetype_of filename

/-- Source line `'%s/%s' % (filename_prefix, compressed_image_filename)`. -/
def compressed_image_filepath (filenamePre filename : String) : String :=
  filenamePre ++ "/" ++ compressed_image_filename filename

/-- Source line `'%s_micro.%s' % (filename_wo_filetype, filetype)`. -/
def micro_image_filename (filename : String) : String :=
  filename_wo_filetype filename ++ "_micro." ++ filetype_of filename

/-- Source line `'%s/%s' % (filename_prefix, micro_image_filename)`. -/
def micro_image_filepath (filenamePre filename : String) : String :=
  filenamePre ++ "/" ++ micro_image_filename filename

/-- Source line `'image/svg+xml' if filetype == 'svg' else 'image/%s' % filetype`. -/
def image_mimetype (filename : String) : String :=
  if filetype_of filename == "svg" then "image/svg+xml"
  else "image/" ++ filetype_of filename

/-! ### The module's functions -/

/-- Embeds `save_original_and_compressed_versions_of_image`: derives the three
filepaths, compresses when the image is compressible (quality factors 0.8 and
0.7), picks the mimetype from the filetype, and commits each of the three
versions only if its filepath is not already a file.  `compress_image` is the
external `image_services.compress_image` collaborator. -/
def save_original_and_compressed_versions_of_image
    (compress_image : String → ℚ → String)
    (store : Store)
    (filename entity_type entity_id original_image_content : String)
    (filenamePre : String) (image_is_compressible : Bool) : Store :=
  let filepath := image_filepath filenamePre filename
  let c_filepath := compressed_image_filepath filenamePre filename
  let m_filepath := micro_image_filepath filenamePre filename
  let compressed_image_content :=
    if image_is_compressible then compress_image original_image_content 0.8
    else original_image_content
  let micro_image_content :=
    if image_is_compressible then compress_image original_image_content 0.7
    else original_image_content
  let mimetype := image_mimetype filename
  let s1 :=
    if isfile store entity_type entity_id filepath then store
    else commit store entity_type entity_id filepath original_image_content mimetype
  let s2 :=
    if isfile s1 entity_type entity_id c_filepath then s1
    else commit s1 entity_type entity_id c_filepath compressed_image_content mimetype
  let s3 :=
    if isfile s2 entity_type entity_id m_filepath then s2
    else commit s2 entity_type entity_id m_filepath micro_image_content mimetype
  s3

/-- Modelled from the spec: `feconf.ENTITY_TYPE_EXPLORATION` (the `feconf`
constants module is not part of the examined source); classifier data is
"scoped to the exploration entity". -/
def ENTITY_TYPE_EXPLORATION : String := "exploration"

/-- Source line `'%s-classifier-data.json' % (job_id)`. -/
def classifier_data_filepath (job_id : String) : String :=
  job_id ++ "-classifier-data.json"

/-- Embeds `save_classifier_data`: commits `json.dumps(classifier_data)`
unconditionally at the classifier path of the exploration's file system.
`json_dumps` is the external `json.dumps` serializer. -/
def save_classifier_data {D : Type} (json_dumps : D → String)
    (store : Store) (exp_id job_id : String) (classifier_data : D) : Store :=
  commit store ENTITY_TYPE_EXPLORATION exp_id (classifier_data_filepath job_id)
    (json_dumps classifier_data) "application/json"

/-- Embeds `read_classifier_data`: `None` when the classifier path is not a file,
otherwise `json.loads` of the stored content.  `json_loads` is the external
`json.loads` deserializer (`none` models a raised decode error). -/
def read_classifier_data {D : Type} (json_loads : String → Option D)
    (store : Store) (exp_id job_id : String) : Option D :=
  if ! isfile store ENTITY_TYPE_EXPLORATION exp_id (classifier_data_filepath job_id)
  then none
  else (getFile store ENTITY_TYPE_EXPLORATION exp_id
          (classifier_data_filepath job_id)).bind json_loads

/-- Embeds `delete_classifier_data`: deletes the classifier path of the
exploration's file system. -/
def delete_classifier_data (store : Store) (exp_id job_id : String) : Store :=
  deleteFile store ENTITY_TYPE_EXPLORATION exp_id (classifier_data_filepath job_id)

/-- Modelled from the spec: `suggestion_models.TARGET_TYPE_SKILL` (registry
constant, not part of the examined source); the spec calls the operation with
the literal `"skill"`. -/
def TARGET_TYPE_SKILL : String := "skill"

/-- Modelled from the spec: `suggestion_models.TARGET_TYPE_EXPLORATION`
(registry constant, not part of the examined source); the spec calls the
operation with the literal `"exploration"`. -/
def TARGET_TYPE_EXPLORATION : String := "exploration"

/-- Modelled from the spec: `feconf.IMAGE_CONTEXT_QUESTION_SUGGESTIONS`, one
of the "two distinct fixed constants" returned as image contexts. -/
def IMAGE_CONTEXT_QUESTION_SUGGESTIONS : String := "question_suggestions"

/-- Modelled from the spec: `feconf.IMAGE_CONTEXT_EXPLORATION_SUGGESTIONS`,
the other of the "two distinct fixed constants" returned as image contexts. -/
def IMAGE_CONTEXT_EXPLORATION_SUGGESTIONS : String := "exploration_suggestions"

/-- Embeds `get_image_context_for_suggestion_target`: a pure lookup that raises
`Exception('Invalid suggestion target type.')` on unknown target types. -/
def get_image_context_for_suggestion_target (suggestion_target_type : String) :
    Except String String :=
  if suggestion_target_type == TARGET_TYPE_SKILL then
    Except.ok IMAGE_CONTEXT_QUESTION_SUGGESTIONS
  else if suggestion_target_type == TARGET_TYPE_EXPLORATION then
    Except.ok IMAGE_CONTEXT_EXPLORATION_SUGGESTIONS
  else
    Except.error "Invalid suggestion target type."

/-- One `destination_fs.copy(source, dest_path)` invocation recorded by
`copy_images`: the file system it is issued on and both arguments. -/
structure CopyOp where
  destEntityType : String
  destEntityId : String
  source : String
  destPath : String
deriving DecidableEq

/-- Embeds `copy_images`: for each filename, derives the compressed and micro
filenames and issues three copies on the destination file system.  The
`source` argument of every copy is `source_fs.impl.assets_path`, the fixed
assets-path property of the source file system (`assets_path` is the external
GCS property, a function of the source entity reference only). -/
def copy_images (assets_path : String → String → String)
    (source_entity_type source_entity_id : String)
    (destination_entity_type destination_entity_id : String)
    (filenames : List String) : List CopyOp :=
  filenames.flatMap (fun filename =>
    [ ⟨destination_entity_type, destination_entity_id,
        assets_path source_entity_type source_entity_id,
        "image/" ++ filename⟩,
      ⟨destination_entity_type, destination_entity_id,
        assets_path source_entity_type source_entity_id,
        "image/" ++ compressed_image_filename filename⟩,
      ⟨destination_entity_type, destination_entity_id,
        assets_path source_entity_type source_entity_id,
        "image/" ++ micro_image_filename filename⟩ ])

/-! ### Store lemmas -/

theorem matchesKey_self (et ei p c m : String) :
    matchesKey ⟨et, ei, p, c, m⟩ et ei p = true := by
  simp [matchesKey]

theorem matchesKey_eq_false (et ei p c m et' ei' p' : String)
    (h : ¬ (et' = et ∧ ei' = ei ∧ p' = p)) :
    matchesKey ⟨et, ei, p, c, m⟩ et' ei' p' = false := by
  rw [← Bool.not_eq_true]
  simp only [matchesKey, Bool.and_eq_true, beq_iff_eq]
  rintro ⟨⟨h1, h2⟩, h3⟩
  exact h ⟨h1.symm, h2.symm, h3.symm⟩

theorem isfile_commit_self (s : Store) (et ei p c m : String) :
    isfile (commit s et ei p c m) et ei p = true := by
  simp [isfile, commit, matchesKey]

theorem isfile_commit_of_isfile (s : Store) (et ei p c m et' ei' p' : String)
    (h : isfile s et' ei' p' = true) :
    isfile (commit s et ei p c m) et' ei' p' = true := by
  simp only [isfile, commit, List.any_cons, Bool.or_eq_true]
  exact Or.inr (by simp only [isfile] at h; exact h)

theorem getFile_commit_self (s : Store) (et ei p c m : String) :
    getFile (commit s et ei p c m) et ei p = some c := by
  simp [getFile, commit, List.find?_cons, matchesKey_self]

theorem getMimetype_commit_self (s : Store) (et ei p c m : String) :
    getMimetype (commit s et ei p c m) et ei p = some m := by
  simp [getMimetype, commit, List.find?_cons, matchesKey_self]

theorem getFile_commit_ne (s : Store) (et ei p c m et' ei' p' : String)
    (h : ¬ (et' = et ∧ ei' = ei ∧ p' = p)) :
    getFile (commit s et ei p c m) et' ei' p' = getFile s et' ei' p' := by
  simp [getFile, commit, List.find?_cons, matchesKey_eq_false et ei p c m et' ei' p' h]

theorem isfile_deleteFile_self (s : Store) (et ei p : String) :
    isfile (deleteFile s et ei p) et ei p = false := by
  induction s with
  | nil => rfl
  | cons e t ih =>
      by_cases h : matchesKey e et ei p
      · simpa [deleteFile, List.filter_cons, h] using ih
      · simp only [Bool.not_eq_true] at h
        simp only [deleteFile, isfile, List.filter_cons, h] at ih ⊢
        simp [List.any_cons, h, ih]

/-! ### Python string lemmas -/

theorem pyRfindAux_of_not_mem (c : Char) (l : List Char) (h : c ∉ l) :
    pyRfindAux c l = -1 := by
  induction l with
  | nil => rfl
  | cons x xs ih =>
      have hx : ¬ (c = x) := fun hh => h (by simp [hh])
      have hxs : c ∉ xs := fun hh => h (List.mem_cons_of_mem _ hh)
      have hbeq : (x == c) = false := beq_eq_false_iff_ne.mpr (fun hh => hx hh.symm)
      simp [pyRfindAux, ih hxs, hbeq]

theorem pyRfindAux_append (c : Char) (l1 l2 : List Char) (h : c ∉ l2) :
    pyRfindAux c (l1 ++ c :: l2) = (l1.length : Int) := by
  induction l1 with
  | nil => simp [pyRfindAux, pyRfindAux_of_not_mem c l2 h]
  | cons x xs ih =>
      have key : pyRfindAux c ((x :: xs) ++ c :: l2) =
          if 0 ≤ pyRfindAux c (xs ++ c :: l2) then pyRfindAux c (xs ++ c :: l2) + 1
          else if x == c then 0 else -1 := rfl
      rw [key, ih, if_pos (by positivity), List.length_cons]
      push_cast
      ring

theorem pyRfindAux_bounds (c : Char) (l : List Char) :
    -1 ≤ pyRfindAux c l ∧ pyRfindAux c l < (l.length : Int) := by
  induction l with
  | nil => simp [pyRfindAux]
  | cons x xs ih =>
      have key : pyRfindAux c (x :: xs) =
          if 0 ≤ pyRfindAux c xs then pyRfindAux c xs + 1
          else if x == c then 0 else -1 := rfl
      rw [key, List.length_cons]
      rcases ih with ⟨ih1, ih2⟩
      by_cases h1 : (0:Int) ≤ pyRfindAux c xs
      · rw [if_pos h1]
        constructor
        · omega
        · push_cast
          omega
      · rw [if_neg h1]
        by_cases h2 : x == c
        · rw [if_pos h2]
          constructor
          · norm_num
          · push_cast
            omega
        · rw [if_neg h2]
          constructor
          · norm_num
          · push_cast
            omega

theorem data_append_dot (stem ext : String) :
    (stem ++ "." ++ ext).data = stem.data ++ '.' :: ext.data := by
  rw [String.data_append, String.data_append]
  simp

theorem filename_wo_filetype_dot (stem ext : String) (h : '.' ∉ ext.data) :
    filename_wo_filetype (stem ++ "." ++ ext) = stem := by
  unfold filename_wo_filetype pyRfind pySliceTo
  rw [data_append_dot, pyRfindAux_append '.' stem.data ext.data h]
  rw [if_neg (by omega)]
  rw [Int.toNat_natCast, List.take_left]

theorem filetype_of_dot (stem ext : String) (h : '.' ∉ ext.data) :
    filetype_of (stem ++ "." ++ ext) = ext := by
  unfold filetype_of pyRfind pySliceFrom
  rw [data_append_dot, pyRfindAux_append '.' stem.data ext.data h]
  rw [if_neg (by omega)]
  have h1 : Int.toNat ((stem.data.length : Int) + 1) = stem.data.length + 1 := by omega
  rw [h1]
  have h2 : stem.data ++ '.' :: ext.data = (stem.data ++ ['.']) ++ ext.data := by simp
  have h3 : stem.data.length + 1 = (stem.data ++ ['.']).length := by simp
  rw [h2, h3, List.drop_left]

theorem filename_wo_filetype_no_dot (f : String) (h : '.' ∉ f.data) :
    filename_wo_filetype f = ⟨f.data.dropLast⟩ := by
  unfold filename_wo_filetype pyRfind pySliceTo
  rw [pyRfindAux_of_not_mem '.' f.data h]
  rw [if_pos (by norm_num)]
  have h1 : Int.toNat ((f.data.length : Int) + -1) = f.data.length - 1 := by omega
  rw [h1, ← List.dropLast_eq_take]

theorem filetype_of_no_dot (f : String) (h : '.' ∉ f.data) :
    filetype_of f = f := by
  unfold filetype_of pyRfind pySliceFrom
  rw [pyRfindAux_of_not_mem '.' f.data h]
  norm_num

/-! ### Lengths and distinctness of the three derived filepaths -/

theorem string_length_append (s t : String) :
    (s ++ t).data.length = s.data.length + t.data.length := by
  rw [String.data_append, List.length_append]

theorem filename_parts_length (f : String) :
    ((filename_wo_filetype f).data.length + (filetype_of f).data.length + 1 = f.data.length)
    ∨ ((filetype_of f).data.length = f.data.length ∧
        (filename_wo_filetype f).data.length = f.data.length - 1) := by
  unfold filename_wo_filetype filetype_of pyRfind pySliceTo pySliceFrom
  rcases pyRfindAux_bounds '.' f.data with ⟨hlo, hhi⟩
  by_cases h : (0:Int) ≤ pyRfindAux '.' f.data
  · left
    rw [if_neg (by omega), if_neg (by omega)]
    simp only [List.length_take, List.length_drop]
    omega
  · right
    have hm1 : pyRfindAux '.' f.data = -1 := by omega
    rw [hm1]
    rw [if_neg (by norm_num), if_pos (by norm_num)]
    simp only [List.length_take, List.length_drop]
    constructor
    · omega
    · omega

theorem string_ne_of_data_length_ne (s t : String) (h : s.data.length ≠ t.data.length) :
    s ≠ t :=
  fun hh => h (by rw [hh])

theorem image_filepath_length (pre f : String) :
    (image_filepath pre f).data.length = pre.data.length + 1 + f.data.length := by
  simp only [image_filepath, string_length_append]
  norm_num

theorem compressed_image_filepath_length (pre f : String) :
    (compressed_image_filepath pre f).data.length =
      pre.data.length + 1 + ((filename_wo_filetype f).data.length + 12
        + (filetype_of f).data.length) := by
  simp only [compressed_image_filepath, compressed_image_filename, string_length_append]
  norm_num

theorem micro_image_filepath_length (pre f : String) :
    (micro_image_filepath pre f).data.length =
      pre.data.length + 1 + ((filename_wo_filetype f).data.length + 7
        + (filetype_of f).data.length) := by
  simp only [micro_image_filepath, micro_image_filename, string_length_append]
  norm_num

theorem image_filepaths_distinct (pre f : String) :
    image_filepath pre f ≠ compressed_image_filepath pre f ∧
    image_filepath pre f ≠ micro_image_filepath pre f ∧
    compressed_image_filepath pre f ≠ micro_image_filepath pre f := by
  have hparts := filename_parts_length f
  have l1 := image_filepath_length pre f
  have l2 := compressed_image_filepath_length pre f
  have l3 := micro_image_filepath_length pre f
  refine ⟨string_ne_of_data_length_ne _ _ ?_, string_ne_of_data_length_ne _ _ ?_,
    string_ne_of_data_length_ne _ _ ?_⟩ <;> omega

/-! ### The conditional commits of
`save_original_and_compressed_versions_of_image` -/

theorem isfile_commit_ne (s : Store) (et ei p c m et' ei' p' : String)
    (h : ¬ (et' = et ∧ ei' = ei ∧ p' = p)) :
    isfile (commit s et ei p c m) et' ei' p' = isfile s et' ei' p' := by
  simp [isfile, commit, List.any_cons, matchesKey_eq_false et ei p c m et' ei' p' h]

theorem guarded_commit_of_not_isfile (s : Store) (et ei p c m : String)
    (h : isfile s et ei p = false) :
    (if isfile s et ei p then s else commit s et ei p c m) = commit s et ei p c m := by
  rw [h]
  simp

theorem guarded_commit_of_isfile (s : Store) (et ei p c m : String)
    (h : isfile s et ei p = true) :
    (if isfile s et ei p then s else commit s et ei p c m) = s := by
  rw [h]
  simp

/-- When none of the three derived filepaths is already a file, the save
pushes exactly three new entries (micro newest), all bound to the same
`(entity_type, entity_id)`, and leaves the rest of the store untouched. -/
theorem save_image_fresh (compress_image : String → ℚ → String) (store : Store)
    (filename et ei content pre : String) (comp : Bool)
    (h1 : isfile store et ei (image_filepath pre filename) = false)
    (h2 : isfile store et ei (compressed_image_filepath pre filename) = false)
    (h3 : isfile store et ei (micro_image_filepath pre filename) = false) :
    save_original_and_compressed_versions_of_image compress_image store
        filename et ei content pre comp =
      ⟨et, ei, micro_image_filepath pre filename,
        (if comp then compress_image content 0.7 else content),
        image_mimetype filename⟩ ::
      ⟨et, ei, compressed_image_filepath pre filename,
        (if comp then compress_image content 0.8 else content),
        image_mimetype filename⟩ ::
      ⟨et, ei, image_filepath pre filename, content,
        image_mimetype filename⟩ :: store := by
  obtain ⟨d12, d13, d23⟩ := image_filepaths_distinct pre filename
  have kne21 : ¬ (et = et ∧ ei = ei ∧
      compressed_image_filepath pre filename = image_filepath pre filename) :=
    fun hh => d12 hh.2.2.symm
  have kne31 : ¬ (et = et ∧ ei = ei ∧
      micro_image_filepath pre filename = image_filepath pre filename) :=
    fun hh => d13 hh.2.2.symm
  have kne32 : ¬ (et = et ∧ ei = ei ∧
      micro_image_filepath pre filename = compressed_image_filepath pre filename) :=
    fun hh => d23 hh.2.2.symm
  have h2' : isfile
      (commit store et ei (image_filepath pre filename) content
        (image_mimetype filename)) et ei
      (compressed_image_filepath pre filename) = false := by
    rw [isfile_commit_ne store et ei (image_filepath pre filename) content
      (image_mimetype filename) et ei (compressed_image_filepath pre filename) kne21]
    exact h2
  have h3' : isfile
      (commit
        (commit store et ei (image_filepath pre filename) content
          (image_mimetype filename))
        et ei (compressed_image_filepath pre filename)
        (if comp then compress_image content 0.8 else content)
        (image_mimetype filename)) et ei
      (micro_image_filepath pre filename) = false := by
    rw [isfile_commit_ne _ et ei (compressed_image_filepath pre filename) _ _ et ei
      (micro_image_filepath pre filename) kne32]
    rw [isfile_commit_ne store et ei (image_filepath pre filename) content
      (image_mimetype filename) et ei (micro_image_filepath pre filename) kne31]
    exact h3
  unfold save_original_and_compressed_versions_of_image
  dsimp only
  rw [guarded_commit_of_not_isfile store et ei (image_filepath pre filename) content
    (image_mimetype filename) h1]
  rw [guarded_commit_of_not_isfile _ et ei (compressed_image_filepath pre filename) _ _ h2']
  rw [guarded_commit_of_not_isfile _ et ei (micro_image_filepath pre filename) _ _ h3']
  rfl

theorem getFile_cons_self (s : Store) (et ei p c m : String) :
    getFile (⟨et, ei, p, c, m⟩ :: s) et ei p = some c :=
  getFile_commit_self s et ei p c m

theorem getFile_cons_ne (s : Store) (et ei p c m et' ei' p' : String)
    (h : ¬ (et' = et ∧ ei' = ei ∧ p' = p)) :
    getFile (⟨et, ei, p, c, m⟩ :: s) et' ei' p' = getFile s et' ei' p' :=
  getFile_commit_ne s et ei p c m et' ei' p' h

/-! ### Dot-form filenames: `<stem>.<ext>` with a dot-free extension -/

theorem compressed_image_filename_dot (stem ext : String) (h : '.' ∉ ext.data) :
    compressed_image_filename (stem ++ "." ++ ext) = stem ++ "_compressed." ++ ext := by
  unfold compressed_image_filename
  rw [filename_wo_filetype_dot stem ext h, filetype_of_dot stem ext h]

theorem micro_image_filename_dot (stem ext : String) (h : '.' ∉ ext.data) :
    micro_image_filename (stem ++ "." ++ ext) = stem ++ "_micro." ++ ext := by
  unfold micro_image_filename
  rw [filename_wo_filetype_dot stem ext h, filetype_of_dot stem ext h]

theorem compressed_image_filepath_dot (pre stem ext : String) (h : '.' ∉ ext.data) :
    compressed_image_filepath pre (stem ++ "." ++ ext)
      = pre ++ "/" ++ (stem ++ "_compressed." ++ ext) := by
  unfold compressed_image_filepath
  rw [compressed_image_filename_dot stem ext h]

theorem micro_image_filepath_dot (pre stem ext : String) (h : '.' ∉ ext.data) :
    micro_image_filepath pre (stem ++ "." ++ ext)
      = pre ++ "/" ++ (stem ++ "_micro." ++ ext) := by
  unfold micro_image_filepath
  rw [micro_image_filename_dot stem ext h]

theorem image_mimetype_dot (stem ext : String) (h : '.' ∉ ext.data) :
    image_mimetype (stem ++ "." ++ ext)
      = if ext == "svg" then "image/svg+xml" else "image/" ++ ext := by
  unfold image_mimetype
  rw [filetype_of_dot stem ext h]

/-! ### Claim theorems -/

/-- Claim C3: for a filename `<stem>.<ext>` with dot-free extension, when
none of the three targets already exists,
`save_original_and_compressed_versions_of_image` writes to exactly the three
target paths `<prefix>/<stem>.<ext>`, `<prefix>/<stem>_compressed.<ext>`,
`<prefix>/<stem>_micro.<ext>`, all bound to the same
`(entity_type, entity_id)` asset prefix, and the rest of the store is
exactly as before (no other path is written). -/
theorem save_image_writes_exactly_three_paths
    (compress_image : String → ℚ → String) (store : Store)
    (stem ext et ei content pre : String) (comp : Bool)
    (hext : '.' ∉ ext.data)
    (h1 : isfile store et ei (pre ++ "/" ++ (stem ++ "." ++ ext)) = false)
    (h2 : isfile store et ei (pre ++ "/" ++ (stem ++ "_compressed." ++ ext)) = false)
    (h3 : isfile store et ei (pre ++ "/" ++ (stem ++ "_micro." ++ ext)) = false) :
    save_original_and_compressed_versions_of_image compress_image store
        (stem ++ "." ++ ext) et ei content pre comp =
      ⟨et, ei, pre ++ "/" ++ (stem ++ "_micro." ++ ext),
        (if comp then compress_image content 0.7 else content),
        (if ext == "svg" then "image/svg+xml" else "image/" ++ ext)⟩ ::
      ⟨et, ei, pre ++ "/" ++ (stem ++ "_compressed." ++ ext),
        (if comp then compress_image content 0.8 else content),
        (if ext == "svg" then "image/svg+xml" else "image/" ++ ext)⟩ ::
      ⟨et, ei, pre ++ "/" ++ (stem ++ "." ++ ext), content,
        (if ext == "svg" then "image/svg+xml" else "image/" ++ ext)⟩ :: store := by
  have h2' : isfile store et ei
      (compressed_image_filepath pre (stem ++ "." ++ ext)) = false := by
    rw [compressed_image_filepath_dot pre stem ext hext]
    exact h2
  have h3' : isfile store et ei
      (micro_image_filepath pre (stem ++ "." ++ ext)) = false := by
    rw [micro_image_filepath_dot pre stem ext hext]
    exact h3
  rw [save_image_fresh compress_image store (stem ++ "." ++ ext) et ei content pre comp
    h1 h2' h3']
  rw [compressed_image_filepath_dot pre stem ext hext,
    micro_image_filepath_dot pre stem ext hext, image_mimetype_dot stem ext hext]
  rfl

/-- Witness for C3 at a concrete input. -/
theorem save_image_writes_exactly_three_paths_witness :
    save_original_and_compressed_versions_of_image (fun s _ => s) []
        ("a" ++ "." ++ "png") "exploration" "e1" "C" "image" false =
      [⟨"exploration", "e1", "image/a_micro.png", "C", "image/png"⟩,
       ⟨"exploration", "e1", "image/a_compressed.png", "C", "image/png"⟩,
       ⟨"exploration", "e1", "image/a.png", "C", "image/png"⟩] :=
  (save_image_writes_exactly_three_paths (fun s _ => s) [] "a" "png" "exploration" "e1"
    "C" "image" false (by decide) rfl rfl rfl).trans rfl

/-- Claim C7: on fresh targets, with `image_is_compressible = false` the
compressed and micro contents committed are byte-for-byte the original
content; with `true` they are the external compressor applied at quality
factors 0.8 and 0.7 respectively. -/
theorem save_image_variant_contents
    (compress_image : String → ℚ → String) (store : Store)
    (filename et ei content pre : String)
    (h1 : isfile store et ei (image_filepath pre filename) = false)
    (h2 : isfile store et ei (compressed_image_filepath pre filename) = false)
    (h3 : isfile store et ei (micro_image_filepath pre filename) = false) :
    (getFile (save_original_and_compressed_versions_of_image compress_image store
        filename et ei content pre false) et ei
        (compressed_image_filepath pre filename) = some content ∧
     getFile (save_original_and_compressed_versions_of_image compress_image store
        filename et ei content pre false) et ei
        (micro_image_filepath pre filename) = some content) ∧
    (getFile (save_original_and_compressed_versions_of_image compress_image store
        filename et ei content pre true) et ei
        (compressed_image_filepath pre filename)
      = some (compress_image content 0.8) ∧
     getFile (save_original_and_compressed_versions_of_image compress_image store
        filename et ei content pre true) et ei
        (micro_image_filepath pre filename)
      = some (compress_image content 0.7)) := by
  obtain ⟨d12, d13, d23⟩ := image_filepaths_distinct pre filename
  have kcm : ¬ (et = et ∧ ei = ei ∧
      compressed_image_filepath pre filename = micro_image_filepath pre filename) :=
    fun hh => d23 hh.2.2
  rw [save_image_fresh compress_image store filename et ei content pre false h1 h2 h3,
    save_image_fresh compress_image store filename et ei content pre true h1 h2 h3]
  refine ⟨⟨?_, ?_⟩, ?_, ?_⟩
  · rw [getFile_cons_ne _ et ei _ _ _ et ei _ kcm, getFile_cons_self]
    rfl
  · rw [getFile_cons_self]
    rfl
  · rw [getFile_cons_ne _ et ei _ _ _ et ei _ kcm, getFile_cons_self]
    rfl
  · rw [getFile_cons_self]
    rfl

/-- Witness for C7 at a concrete input (the toy compressor records the
quality factor it was called with). -/
theorem save_image_variant_contents_witness :
    (getFile (save_original_and_compressed_versions_of_image
        (fun s q => if q == 0.8 then s ++ "@hi" else s ++ "@lo") []
        "a.png" "exploration" "e1" "C" "image" false) "exploration" "e1"
        (compressed_image_filepath "image" "a.png") = some "C" ∧
     getFile (save_original_and_compressed_versions_of_image
        (fun s q => if q == 0.8 then s ++ "@hi" else s ++ "@lo") []
        "a.png" "exploration" "e1" "C" "image" false) "exploration" "e1"
        (micro_image_filepath "image" "a.png") = some "C") ∧
    (getFile (save_original_and_compressed_versions_of_image
        (fun s q => if q == 0.8 then s ++ "@hi" else s ++ "@lo") []
        "a.png" "exploration" "e1" "C" "image" true) "exploration" "e1"
        (compressed_image_filepath "image" "a.png") = some "C@hi" ∧
     getFile (save_original_and_compressed_versions_of_image
        (fun s q => if q == 0.8 then s ++ "@hi" else s ++ "@lo") []
        "a.png" "exploration" "e1" "C" "image" true) "exploration" "e1"
        (micro_image_filepath "image" "a.png") = some "C@lo") := by
  have h := save_image_variant_contents
    (fun s q => if q == 0.8 then s ++ "@hi" else s ++ "@lo") []
    "a.png" "exploration" "e1" "C" "image" rfl rfl rfl
  refine ⟨⟨h.1.1, h.1.2⟩, ?_, ?_⟩
  · rw [h.2.1]
    norm_num
    rfl
  · rw [h.2.2]
    norm_num
    rfl

/-! ### Behaviour of one guarded commit step -/

theorem isfile_guarded_commit_self (s : Store) (et ei p c m : String) :
    isfile (if isfile s et ei p then s else commit s et ei p c m) et ei p = true := by
  by_cases hc : isfile s et ei p
  · rw [guarded_commit_of_isfile s et ei p c m hc]
    exact hc
  · rw [guarded_commit_of_not_isfile s et ei p c m (by simpa using hc)]
    exact isfile_commit_self s et ei p c m

theorem isfile_guarded_commit_mono (s : Store) (et ei p c m et' ei' p' : String)
    (h : isfile s et' ei' p' = true) :
    isfile (if isfile s et ei p then s else commit s et ei p c m) et' ei' p' = true := by
  by_cases hc : isfile s et ei p
  · rw [guarded_commit_of_isfile s et ei p c m hc]
    exact h
  · rw [guarded_commit_of_not_isfile s et ei p c m (by simpa using hc)]
    exact isfile_commit_of_isfile s et ei p c m et' ei' p' h

theorem getFile_guarded_commit_of_isfile (s : Store) (et ei p c m et' ei' p' : String)
    (h : isfile s et' ei' p' = true) :
    getFile (if isfile s et ei p then s else commit s et ei p c m) et' ei' p'
      = getFile s et' ei' p' := by
  by_cases hc : isfile s et ei p
  · rw [guarded_commit_of_isfile s et ei p c m hc]
  · have hcf : isfile s et ei p = false := by simpa using hc
    rw [guarded_commit_of_not_isfile s et ei p c m hcf]
    have hne : ¬ (et' = et ∧ ei' = ei ∧ p' = p) := by
      rintro ⟨rfl, rfl, rfl⟩
      rw [h] at hcf
      exact absurd hcf (by decide)
    exact getFile_commit_ne s et ei p c m et' ei' p' hne

theorem getFile_guarded_commit_ne (s : Store) (et ei p c m et' ei' p' : String)
    (h : ¬ (et' = et ∧ ei' = ei ∧ p' = p)) :
    getFile (if isfile s et ei p then s else commit s et ei p c m) et' ei' p'
      = getFile s et' ei' p' := by
  by_cases hc : isfile s et ei p
  · rw [guarded_commit_of_isfile s et ei p c m hc]
  · rw [guarded_commit_of_not_isfile s et ei p c m (by simpa using hc)]
    exact getFile_commit_ne s et ei p c m et' ei' p' h

/-- After any save, all three derived filepaths are files. -/
theorem isfile_save_image (compress_image : String → ℚ → String) (store : Store)
    (filename et ei content pre : String) (comp : Bool) :
    isfile (save_original_and_compressed_versions_of_image compress_image store
        filename et ei content pre comp) et ei (image_filepath pre filename) = true ∧
    isfile (save_original_and_compressed_versions_of_image compress_image store
        filename et ei content pre comp) et ei
        (compressed_image_filepath pre filename) = true ∧
    isfile (save_original_and_compressed_versions_of_image compress_image store
        filename et ei content pre comp) et ei
        (micro_image_filepath pre filename) = true := by
  unfold save_original_and_compressed_versions_of_image
  dsimp only
  refine ⟨?_, ?_, ?_⟩
  · apply isfile_guarded_commit_mono
    apply isfile_guarded_commit_mono
    apply isfile_guarded_commit_self
  · apply isfile_guarded_commit_mono
    apply isfile_guarded_commit_self
  · apply isfile_guarded_commit_self

/-- Claim C4: a second save with the same arguments is a no-op — the
existence check before each of the three commits fires, so the store after
two calls is literally the store after one. -/
theorem save_image_idempotent (compress_image : String → ℚ → String) (store : Store)
    (filename et ei content pre : String) (comp : Bool) :
    save_original_and_compressed_versions_of_image compress_image
      (save_original_and_compressed_versions_of_image compress_image store
        filename et ei content pre comp)
      filename et ei content pre comp
    = save_original_and_compressed_versions_of_image compress_image store
        filename et ei content pre comp := by
  obtain ⟨i1, i2, i3⟩ :=
    isfile_save_image compress_image store filename et ei content pre comp
  set T := save_original_and_compressed_versions_of_image compress_image store
    filename et ei content pre comp with hT
  unfold save_original_and_compressed_versions_of_image
  dsimp only
  rw [guarded_commit_of_isfile T et ei (image_filepath pre filename) content
    (image_mimetype filename) i1]
  rw [guarded_commit_of_isfile T et ei (compressed_image_filepath pre filename)
    (if comp then compress_image content 0.8 else content) (image_mimetype filename) i2]
  rw [guarded_commit_of_isfile T et ei (micro_image_filepath pre filename)
    (if comp then compress_image content 0.7 else content) (image_mimetype filename) i3]

/-- Claim C2 fails as stated: `save_classifier_data` commits without an
existence check, so it overwrites an existing classifier file. -/
theorem save_classifier_data_overwrites :
    isfile [(⟨ENTITY_TYPE_EXPLORATION, "e1", classifier_data_filepath "j1", "old",
        "application/json"⟩ : Entry)]
      ENTITY_TYPE_EXPLORATION "e1" (classifier_data_filepath "j1") = true ∧
    getFile [(⟨ENTITY_TYPE_EXPLORATION, "e1", classifier_data_filepath "j1", "old",
        "application/json"⟩ : Entry)]
      ENTITY_TYPE_EXPLORATION "e1" (classifier_data_filepath "j1") = some "old" ∧
    getFile (save_classifier_data (fun d : String => d)
        [⟨ENTITY_TYPE_EXPLORATION, "e1", classifier_data_filepath "j1", "old",
          "application/json"⟩]
        "e1" "j1" "new")
      ENTITY_TYPE_EXPLORATION "e1" (classifier_data_filepath "j1") = some "new" ∧
    ("new" : String) ≠ "old" := by
  refine ⟨rfl, rfl, rfl, by decide⟩

/-- Claim C2 (amended): the existence-check-and-skip discipline holds for
the three image writes of `save_original_and_compressed_versions_of_image`
— no path that already exists is overwritten by it — but
`save_classifier_data` commits unconditionally, overwriting any prior
content at its classifier path. -/
theorem write_discipline {D : Type} (json_dumps : D → String)
    (compress_image : String → ℚ → String) (store : Store)
    (filename et ei content pre : String) (comp : Bool)
    (exp_id job_id : String) (d : D) (et' ei' p' : String)
    (hfile : isfile store et' ei' p' = true) :
    getFile (save_original_and_compressed_versions_of_image compress_image store
        filename et ei content pre comp) et' ei' p' = getFile store et' ei' p' ∧
    getFile (save_classifier_data json_dumps store exp_id job_id d)
        ENTITY_TYPE_EXPLORATION exp_id (classifier_data_filepath job_id)
      = some (json_dumps d) := by
  constructor
  · unfold save_original_and_compressed_versions_of_image
    dsimp only
    have f1 := isfile_guarded_commit_mono store et ei (image_filepath pre filename)
      content (image_mimetype filename) et' ei' p' hfile
    have f2 := isfile_guarded_commit_mono _ et ei (compressed_image_filepath pre filename)
      (if comp then compress_image content 0.8 else content) (image_mimetype filename)
      et' ei' p' f1
    rw [getFile_guarded_commit_of_isfile _ et ei (micro_image_filepath pre filename)
      (if comp then compress_image content 0.7 else content) (image_mimetype filename)
      et' ei' p' f2]
    rw [getFile_guarded_commit_of_isfile _ et ei (compressed_image_filepath pre filename)
      (if comp then compress_image content 0.8 else content) (image_mimetype filename)
      et' ei' p' f1]
    exact getFile_guarded_commit_of_isfile store et ei (image_filepath pre filename)
      content (image_mimetype filename) et' ei' p' hfile
  · exact getFile_commit_self store ENTITY_TYPE_EXPLORATION exp_id
      (classifier_data_filepath job_id) (json_dumps d) "application/json"

/-- Witness for C2's amended theorem at a concrete input. -/
theorem write_discipline_witness :
    getFile (save_original_and_compressed_versions_of_image (fun s _ => s)
        [⟨"skill", "s1", "other/path", "K", "text/plain"⟩]
        "a.png" "exploration" "e1" "C" "image" false) "skill" "s1" "other/path"
      = getFile [(⟨"skill", "s1", "other/path", "K", "text/plain"⟩ : Entry)]
          "skill" "s1" "other/path" ∧
    getFile (save_classifier_data (fun d : String => d)
        [⟨"skill", "s1", "other/path", "K", "text/plain"⟩] "e2" "j2" "payload")
        ENTITY_TYPE_EXPLORATION "e2" (classifier_data_filepath "j2")
      = some "payload" :=
  write_discipline (fun d : String => d) (fun s _ => s)
    [⟨"skill", "s1", "other/path", "K", "text/plain"⟩]
    "a.png" "exploration" "e1" "C" "image" false "e2" "j2" "payload"
    "skill" "s1" "other/path" (by decide)

/-- Claim C10: the save writes only to the three derived paths under its
`(entity_type, entity_id)`; the content at every other key of the store —
classifier paths and other entities' assets included — is unchanged. -/
theorem save_image_frame (compress_image : String → ℚ → String) (store : Store)
    (filename et ei content pre et' ei' p' : String) (comp : Bool)
    (h : ¬ (et' = et ∧ ei' = ei ∧
        (p' = image_filepath pre filename ∨ p' = compressed_image_filepath pre filename ∨
         p' = micro_image_filepath pre filename))) :
    getFile (save_original_and_compressed_versions_of_image compress_image store
        filename et ei content pre comp) et' ei' p' = getFile store et' ei' p' := by
  have k1 : ¬ (et' = et ∧ ei' = ei ∧ p' = image_filepath pre filename) :=
    fun hh => h ⟨hh.1, hh.2.1, Or.inl hh.2.2⟩
  have k2 : ¬ (et' = et ∧ ei' = ei ∧ p' = compressed_image_filepath pre filename) :=
    fun hh => h ⟨hh.1, hh.2.1, Or.inr (Or.inl hh.2.2)⟩
  have k3 : ¬ (et' = et ∧ ei' = ei ∧ p' = micro_image_filepath pre filename) :=
    fun hh => h ⟨hh.1, hh.2.1, Or.inr (Or.inr hh.2.2)⟩
  unfold save_original_and_compressed_versions_of_image
  dsimp only
  rw [getFile_guarded_commit_ne _ et ei (micro_image_filepath pre filename)
    (if comp then compress_image content 0.7 else content) (image_mimetype filename)
    et' ei' p' k3]
  rw [getFile_guarded_commit_ne _ et ei (compressed_image_filepath pre filename)
    (if comp then compress_image content 0.8 else content) (image_mimetype filename)
    et' ei' p' k2]
  exact getFile_guarded_commit_ne store et ei (image_filepath pre filename)
    content (image_mimetype filename) et' ei' p' k1

/-- Witness for C10 at a concrete input: a classifier path of another
entity is untouched. -/
theorem save_image_frame_witness :
    getFile (save_original_and_compressed_versions_of_image (fun s _ => s)
        [⟨ENTITY_TYPE_EXPLORATION, "e2", classifier_data_filepath "j1", "D",
          "application/json"⟩]
        "a.png" "exploration" "e1" "C" "image" true) ENTITY_TYPE_EXPLORATION "e2"
        (classifier_data_filepath "j1")
      = getFile [(⟨ENTITY_TYPE_EXPLORATION, "e2", classifier_data_filepath "j1", "D",
          "application/json"⟩ : Entry)] ENTITY_TYPE_EXPLORATION "e2"
          (classifier_data_filepath "j1") :=
  save_image_frame (fun s _ => s)
    [⟨ENTITY_TYPE_EXPLORATION, "e2", classifier_data_filepath "j1", "D",
      "application/json"⟩]
    "a.png" "exploration" "e1" "C" "image" ENTITY_TYPE_EXPLORATION "e2"
    (classifier_data_filepath "j1") true (by decide)

/-- Claim C1: per filename, `copy_images` issues exactly three copies on the
destination file system, with destination paths `image/<filename>`,
`image/<stem>_compressed.<ext>` and `image/<stem>_micro.<ext>`, and the
source argument of every one of them is the source file system's fixed
`assets_path` property — the same value for every file and variant, not a
per-file derived source path. -/
theorem copy_images_ops (assets_path : String → String → String)
    (src_et src_id dst_et dst_id stem ext : String) (rest : List String)
    (hext : '.' ∉ ext.data) :
    copy_images assets_path src_et src_id dst_et dst_id
        ((stem ++ "." ++ ext) :: rest) =
      ⟨dst_et, dst_id, assets_path src_et src_id,
        "image/" ++ (stem ++ "." ++ ext)⟩ ::
      ⟨dst_et, dst_id, assets_path src_et src_id,
        "image/" ++ (stem ++ "_compressed." ++ ext)⟩ ::
      ⟨dst_et, dst_id, assets_path src_et src_id,
        "image/" ++ (stem ++ "_micro." ++ ext)⟩ ::
      copy_images assets_path src_et src_id dst_et dst_id rest := by
  unfold copy_images
  simp only [List.flatMap_cons, List.cons_append, List.nil_append]
  rw [compressed_image_filename_dot stem ext hext, micro_image_filename_dot stem ext hext]

/-- Witness for C1 at a concrete input. -/
theorem copy_images_ops_witness :
    copy_images (fun a b => a ++ ":" ++ b ++ "/assets") "exploration" "e1"
        "question" "q1" [("abc" ++ "." ++ "png")] =
      [⟨"question", "q1", "exploration:e1/assets", "image/abc.png"⟩,
       ⟨"question", "q1", "exploration:e1/assets", "image/abc_compressed.png"⟩,
       ⟨"question", "q1", "exploration:e1/assets", "image/abc_micro.png"⟩] :=
  (copy_images_ops (fun a b => a ++ ":" ++ b ++ "/assets") "exploration" "e1"
    "question" "q1" "abc" "png" [] (by decide)).trans rfl

/-- Claim C5: `read_classifier_data` returns `none` when no classifier file
exists at the derived path, and reading right after
`save_classifier_data` returns exactly the saved structure, provided the
external JSON codec round-trips on it. -/
theorem classifier_round_trip {D : Type} (json_dumps : D → String)
    (json_loads : String → Option D) (store : Store) (exp_id job_id : String) (d : D) :
    (isfile store ENTITY_TYPE_EXPLORATION exp_id (classifier_data_filepath job_id)
        = false →
      read_classifier_data json_loads store exp_id job_id = none) ∧
    (json_loads (json_dumps d) = some d →
      read_classifier_data json_loads
          (save_classifier_data json_dumps store exp_id job_id d) exp_id job_id
        = some d) := by
  constructor
  · intro h
    unfold read_classifier_data
    rw [h]
    rfl
  · intro h
    unfold read_classifier_data save_classifier_data
    rw [isfile_commit_self store ENTITY_TYPE_EXPLORATION exp_id
      (classifier_data_filepath job_id) (json_dumps d) "application/json"]
    rw [getFile_commit_self store ENTITY_TYPE_EXPLORATION exp_id
      (classifier_data_filepath job_id) (json_dumps d) "application/json"]
    simpa using h

/-- Witness for C5 at a concrete input, with a unary codec that satisfies
the round-trip hypothesis. -/
theorem classifier_round_trip_witness :
    read_classifier_data (fun s => some s.data.length) [] "e1" "j1" = none ∧
    read_classifier_data (fun s => some s.data.length)
        (save_classifier_data (fun n : Nat => ⟨List.replicate n 'x'⟩) [] "e1" "j1" 42)
        "e1" "j1"
      = some 42 :=
  ⟨(classifier_round_trip (fun n : Nat => ⟨List.replicate n 'x'⟩)
      (fun s => some s.data.length) [] "e1" "j1" 42).1 rfl,
   (classifier_round_trip (fun n : Nat => ⟨List.replicate n 'x'⟩)
      (fun s => some s.data.length) [] "e1" "j1" 42).2 (by decide)⟩

/-- Claim C8: deleting the classifier data and then reading it back yields
`none` — the delete removes the classifier path, so the read's existence
check fails. -/
theorem delete_then_read_none {D : Type} (json_loads : String → Option D)
    (store : Store) (exp_id job_id : String) :
    read_classifier_data json_loads (delete_classifier_data store exp_id job_id)
        exp_id job_id = none := by
  unfold read_classifier_data delete_classifier_data
  rw [isfile_deleteFile_self store ENTITY_TYPE_EXPLORATION exp_id
    (classifier_data_filepath job_id)]
  rfl

/-- Claim C6: the lookup returns one fixed constant for the skill target
type and a distinct fixed constant for the exploration target type, and
raises the invalid-argument error exactly on every other input. -/
theorem get_image_context_behavior :
    get_image_context_for_suggestion_target TARGET_TYPE_SKILL
        = Except.ok IMAGE_CONTEXT_QUESTION_SUGGESTIONS ∧
    get_image_context_for_suggestion_target TARGET_TYPE_EXPLORATION
        = Except.ok IMAGE_CONTEXT_EXPLORATION_SUGGESTIONS ∧
    IMAGE_CONTEXT_QUESTION_SUGGESTIONS ≠ IMAGE_CONTEXT_EXPLORATION_SUGGESTIONS ∧
    ∀ t : String,
      (∃ e, get_image_context_for_suggestion_target t = Except.error e) ↔
      ¬ (t = TARGET_TYPE_SKILL ∨ t = TARGET_TYPE_EXPLORATION) := by
  refine ⟨rfl, rfl, by decide, ?_⟩
  intro t
  unfold get_image_context_for_suggestion_target
  by_cases h1 : t = TARGET_TYPE_SKILL
  · subst h1
    rw [if_pos (by decide)]
    simp
  · rw [if_neg (by simpa [beq_iff_eq] using h1)]
    by_cases h2 : t = TARGET_TYPE_EXPLORATION
    · subst h2
      rw [if_pos (by decide)]
      simp
    · rw [if_neg (by simpa [beq_iff_eq] using h2)]
      simp [h1, h2]

/-- Witness for C6: an unknown target type yields the error. -/
theorem get_image_context_behavior_witness :
    ∃ e, get_image_context_for_suggestion_target "topic" = Except.error e :=
  (get_image_context_behavior.2.2.2 "topic").mpr (by decide)

/-! ### Filenames without any dot -/

theorem compressed_image_filepath_no_dot (pre f : String) (h : '.' ∉ f.data) :
    compressed_image_filepath pre f
      = pre ++ "/" ++ ((⟨f.data.dropLast⟩ : String) ++ "_compressed." ++ f) := by
  unfold compressed_image_filepath compressed_image_filename
  rw [filename_wo_filetype_no_dot f h, filetype_of_no_dot f h]

theorem micro_image_filepath_no_dot (pre f : String) (h : '.' ∉ f.data) :
    micro_image_filepath pre f
      = pre ++ "/" ++ ((⟨f.data.dropLast⟩ : String) ++ "_micro." ++ f) := by
  unfold micro_image_filepath micro_image_filename
  rw [filename_wo_filetype_no_dot f h, filetype_of_no_dot f h]

theorem image_mimetype_no_dot (f : String) (h : '.' ∉ f.data) :
    image_mimetype f = if f == "svg" then "image/svg+xml" else "image/" ++ f := by
  unfold image_mimetype
  rw [filetype_of_no_dot f h]

/-- Claim C9 fails as stated on the dot-free filename "svg": the last-dot
search returns -1 and the derived filetype is the whole filename "svg", so
the mimetype committed is "image/svg+xml", not "image/svg". -/
theorem save_image_no_dot_svg_counterexample :
    getMimetype (save_original_and_compressed_versions_of_image
        (fun s _ => s) [] "svg" "exploration" "e1" "C" "image" false)
      "exploration" "e1" "image/svg" = some "image/svg+xml" ∧
    ("image/svg+xml" : String) ≠ "image/" ++ "svg" := by
  refine ⟨rfl, by decide⟩

/-- Claim C9 (amended): for a dot-free filename the call still completes,
the stem is the filename minus its last character and the filetype is the
whole filename, so on fresh targets it writes the original at
`<prefix>/<filename>`, the compressed variant at
`<prefix>/<filename-minus-last-char>_compressed.<filename>`, the micro
variant at `<prefix>/<filename-minus-last-char>_micro.<filename>`, and the
mimetype used is `image/<filename>` — except for the filename "svg", where
it is `image/svg+xml`. -/
theorem save_image_no_dot (compress_image : String → ℚ → String) (store : Store)
    (f et ei content pre : String) (comp : Bool)
    (hnd : '.' ∉ f.data)
    (h1 : isfile store et ei (pre ++ "/" ++ f) = false)
    (h2 : isfile store et ei
      (pre ++ "/" ++ ((⟨f.data.dropLast⟩ : String) ++ "_compressed." ++ f)) = false)
    (h3 : isfile store et ei
      (pre ++ "/" ++ ((⟨f.data.dropLast⟩ : String) ++ "_micro." ++ f)) = false) :
    save_original_and_compressed_versions_of_image compress_image store
        f et ei content pre comp =
      ⟨et, ei, pre ++ "/" ++ ((⟨f.data.dropLast⟩ : String) ++ "_micro." ++ f),
        (if comp then compress_image content 0.7 else content),
        (if f == "svg" then "image/svg+xml" else "image/" ++ f)⟩ ::
      ⟨et, ei, pre ++ "/" ++ ((⟨f.data.dropLast⟩ : String) ++ "_compressed." ++ f),
        (if comp then compress_image content 0.8 else content),
        (if f == "svg" then "image/svg+xml" else "image/" ++ f)⟩ ::
      ⟨et, ei, pre ++ "/" ++ f, content,
        (if f == "svg" then "image/svg+xml" else "image/" ++ f)⟩ :: store := by
  have h2' : isfile store et ei (compressed_image_filepath pre f) = false := by
    rw [compressed_image_filepath_no_dot pre f hnd]
    exact h2
  have h3' : isfile store et ei (micro_image_filepath pre f) = false := by
    rw [micro_image_filepath_no_dot pre f hnd]
    exact h3
  rw [save_image_fresh compress_image store f et ei content pre comp h1 h2' h3']
  rw [compressed_image_filepath_no_dot pre f hnd, micro_image_filepath_no_dot pre f hnd,
    image_mimetype_no_dot f hnd]
  rfl

/-- Witness for C9's amended theorem at the dot-free filename "ab". -/
theorem save_image_no_dot_witness :
    save_original_and_compressed_versions_of_image (fun s _ => s) []
        "ab" "exploration" "e1" "C" "image" false =
      [⟨"exploration", "e1", "image/a_micro.ab", "C", "image/ab"⟩,
       ⟨"exploration", "e1", "image/a_compressed.ab", "C", "image/ab"⟩,
       ⟨"exploration", "e1", "image/ab", "C", "image/ab"⟩] :=
  (save_image_no_dot (fun s _ => s) [] "ab" "exploration" "e1" "C" "image" false
    (by decide) rfl rfl rfl).trans rfl

end FsServices
